import Mathlib

/-!
Verification of the real-time voice session core of this repository
(`src/components/VoiceAssistant.tsx`).

The development embeds, as executable Lean definitions translated from the
TypeScript source:

* the PCM wire codec (`createBlob`, `decodeAudioData`) together with the
  base64 transport helpers (`encode`, `decode`);
* the tool-call dispatch loop of the `onmessage` callback;
* the playback-scheduling recurrence of the inbound-audio branch;
* a small-step trace machine for the `stop_speaking` flush interacting
  with inbound audio decodes (the `isStoppedRef` flag and its 2000 ms
  timer reset);
* the `stopSession` teardown routine and the `startSession` entry point,
  both as state-and-effect-log functions.

Machine integers follow JavaScript semantics: an `Int16Array` element
store performs `ToInt16` (truncation toward zero, then reduction mod
2^16 into the signed range — wraparound, not saturation).  Audio sample
values and times are modelled as rationals; every concrete value used in
a theorem below is exactly representable, so the rational model agrees
with the source's float arithmetic on those inputs.
-/

namespace VoiceAssistant

/-! ### PCM codec: `createBlob`, `decodeAudioData`, base64 helpers -/

/-- JavaScript `ToInt16`, the conversion applied when a number is stored
into an `Int16Array` element: reduce mod 2^16 into the signed 16-bit
range.  Wraparound, no saturation. -/
def toInt16 (n : ℤ) : ℤ := Int.emod (n + 32768) 65536 - 32768

/-- Truncation toward zero of a rational number, the integer-conversion
step JavaScript performs before `ToInt16` when storing a float into an
`Int16Array`. -/
def truncQ (q : ℚ) : ℤ := if 0 ≤ q then ⌊q⌋ else ⌈q⌉

/-- The base64 alphabet, as used by the browser builtin `btoa` that the
source's `encode` helper wraps. -/
def b64Char (n : ℕ) : Char :=
  if n < 26 then Char.ofNat (65 + n)
  else if n < 52 then Char.ofNat (97 + (n - 26))
  else if n < 62 then Char.ofNat (48 + (n - 52))
  else if n = 62 then '+'
  else '/'

/-- Inverse of the base64 alphabet (the browser builtin `atob` that the
source's `decode` helper wraps). -/
def b64Val (c : Char) : ℕ :=
  if 65 ≤ c.toNat ∧ c.toNat ≤ 90 then c.toNat - 65
  else if 97 ≤ c.toNat ∧ c.toNat ≤ 122 then c.toNat - 97 + 26
  else if 48 ≤ c.toNat ∧ c.toNat ≤ 57 then c.toNat - 48 + 52
  else if c = '+' then 62
  else 63

/-- Source helper `encode(bytes)`: bytes → base64 text (via `btoa`).
Groups of three bytes become four characters; a trailing group of one or
two bytes is padded with `=`. -/
def encode : List ℕ → List Char
  | [] => []
  | [a] => [b64Char (a / 4), b64Char ((a % 4) * 16), '=', '=']
  | [a, b] => [b64Char (a / 4), b64Char ((a % 4) * 16 + b / 16),
               b64Char ((b % 16) * 4), '=']
  | a :: b :: c :: rest =>
      b64Char (a / 4) :: b64Char ((a % 4) * 16 + b / 16) ::
      b64Char ((b % 16) * 4 + c / 64) :: b64Char (c % 64) :: encode rest

/-- Source helper `decode(base64)`: base64 text → bytes (via `atob`). -/
def decode : List Char → List ℕ
  | c1 :: c2 :: c3 :: c4 :: rest =>
      if c3 = '=' then
        [b64Val c1 * 4 + b64Val c2 / 16]
      else if c4 = '=' then
        [b64Val c1 * 4 + b64Val c2 / 16,
         (b64Val c2 % 16) * 16 + b64Val c3 / 4]
      else
        (b64Val c1 * 4 + b64Val c2 / 16) ::
        ((b64Val c2 % 16) * 16 + b64Val c3 / 4) ::
        ((b64Val c3 % 4) * 64 + b64Val c4) :: decode rest
  | _ => []

/-- The two little-endian bytes of an int16 value, as exposed by viewing
an `Int16Array`'s buffer through a `Uint8Array` on a little-endian host. -/
def int16Bytes (v : ℤ) : List ℕ :=
  let u := (Int.emod v 65536).toNat
  [u % 256, u / 256]

/-- Little-endian byte serialisation of a list of int16 values. -/
def int16ToBytesLE (vs : List ℤ) : List ℕ := (vs.map int16Bytes).flatten

/-- The per-sample conversion performed by `createBlob`:
`int16[i] = data[i] * 32768` with JavaScript `Int16Array` store
semantics (truncate toward zero, then wrap mod 2^16).  Note: multiply by
32768 with no clamping — `x = 1.0` wraps to `-32768`. -/
def createBlobSample (x : ℚ) : ℤ := toInt16 (truncQ (x * 32768))

/-- The wire chunk produced by `createBlob`: base64 payload plus a
mime-type tag carrying the capture sample rate. -/
structure PcmBlob where
  data : List Char
  mimeType : String
deriving DecidableEq

/-- Source `createBlob(data, sampleRate)`: scale each float by 32768 into
an `Int16Array` (wraparound semantics), serialise little-endian, base64
encode, and tag with the actual sample rate. -/
def createBlob (data : List ℚ) (sampleRate : ℕ) : PcmBlob :=
  { data := encode (int16ToBytesLE (data.map createBlobSample))
    mimeType := "audio/pcm;rate=" ++ toString sampleRate }

/-- Reading bytes back as signed little-endian int16 values, as
`new Int16Array(data.buffer)` does in `decodeAudioData`. -/
def bytesToInt16LE : List ℕ → List ℤ
  | lo :: hi :: rest => toInt16 ((lo : ℤ) + 256 * hi) :: bytesToInt16LE rest
  | _ => []

/-- Source `decodeAudioData(data, ctx, sampleRate, numChannels)`: view the
bytes as int16, de-interleave into `numChannels` channels of
`frameCount = length / numChannels` frames, and scale each sample by
`1 / 32768`. -/
def decodeAudioData (data : List ℕ) (numChannels : ℕ) : List (List ℚ) :=
  let dataInt16 := bytesToInt16LE data
  let frameCount := dataInt16.length / numChannels
  (List.range numChannels).map (fun channel =>
    (List.range frameCount).map (fun i =>
      ((dataInt16.getD (i * numChannels + channel) 0 : ℤ) : ℚ) / 32768))

/-- The encoding the specification asks for: `round(x * 32767)` saturated
at the int16 bounds.  Stated from the spec's words, for comparison with
`createBlobSample` (the source's actual conversion). -/
def specEncodeSample (x : ℚ) : ℤ := max (-32768) (min 32767 ⌊x * 32767 + 1/2⌋)

/-! ### Tool-call dispatch (the `message.toolCall` branch of `onmessage`) -/

/-- A tool call received from the remote model: correlation id, tool
name, and a named-argument map (`fc.id`, `fc.name`, `fc.args`). -/
structure ToolCall where
  id : String
  name : String
  args : List (String × String)
deriving DecidableEq

/-- The `result` value built by a dispatch branch: the source initialises
`result = { ok: true }` and branches overwrite it, usually adding a
`message`. -/
structure ToolResult where
  ok : Bool
  message : Option String
deriving DecidableEq

/-- One element of the `functionResponses` array sent back:
`{ id: fc.id, name: fc.name, response: { result } }`. -/
structure ToolResponse where
  id : String
  name : String
  result : ToolResult
deriving DecidableEq

/-- Template-literal lookup of an argument: a missing key renders as
JavaScript `undefined`. -/
def getArg (args : List (String × String)) (k : String) : String :=
  match args.lookup k with
  | some v => v
  | none => "undefined"

/-- Ambient inputs of the dispatch loop: whether the external UI
callbacks (`onCommand` / `onAudit` / `onApplyAll`) throw when invoked for
a given call, the current `generateStateReport()` text, and the docs text
assembled from i18next for `read_docs_content`. -/
structure DispatchEnv where
  handlerThrows : ToolCall → Bool
  stateReport : String
  docsText : String

/-- The tool names whose dispatch branch invokes one of the external UI
callbacks (`onCommand`, `onAudit`, `onApplyAll`) — the handlers that can
throw across the dispatch boundary. -/
def invokesHandler (n : String) : Bool :=
  n = "scroll_viewport" || n = "update_dashboard" || n = "update_native_input" ||
  n = "trigger_native_generation" || n = "perform_item_action" ||
  n = "apply_settings_globally" || n = "start_processing_queue" ||
  n = "analyze_images" || n = "manage_ui_state" || n = "manage_queue_actions" ||
  n = "set_composite_config"

/-- Every tool name matched by some branch of the dispatch `if`/`else`
chain (including the async `request_visual_context`); any other name
falls through every branch. -/
def isKnownName (n : String) : Bool :=
  invokesHandler n || n = "get_system_state" || n = "request_visual_context" ||
  n = "stop_speaking" || n = "read_docs_content"

/-- The `result` value a (non-throwing) dispatch branch leaves for a
call.  A name matched by no branch keeps the initial `{ ok: true }` with
no message — the generic acknowledgement. -/
def handlerResult (env : DispatchEnv) (fc : ToolCall) : ToolResult :=
  if fc.name = "get_system_state" then ⟨true, some env.stateReport⟩
  else if fc.name = "scroll_viewport" then
    ⟨true, some ("Scrolled " ++ getArg fc.args "direction")⟩
  else if fc.name = "update_dashboard" then ⟨true, some "Dashboard updated."⟩
  else if fc.name = "update_native_input" then ⟨true, some "Native input updated."⟩
  else if fc.name = "trigger_native_generation" then
    ⟨true, some "Generation started successfully."⟩
  else if fc.name = "perform_item_action" then
    ⟨true, some ("Action " ++ getArg fc.args "action" ++ " performed on item " ++
                 getArg fc.args "targetIndex" ++ ".")⟩
  else if fc.name = "apply_settings_globally" then ⟨true, some "Applied globally."⟩
  else if fc.name = "start_processing_queue" then ⟨true, some "Queue started."⟩
  else if fc.name = "analyze_images" then ⟨true, some "Audit running."⟩
  else if fc.name = "manage_ui_state" then
    ⟨true, some ("UI State updated: " ++ getArg fc.args "action" ++ " -> " ++
                 getArg fc.args "value")⟩
  else if fc.name = "stop_speaking" then ⟨true, some "Audio stopped."⟩
  else if fc.name = "manage_queue_actions" then ⟨true, some "Queue action executed."⟩
  else if fc.name = "read_docs_content" then ⟨true, some env.docsText⟩
  else if fc.name = "set_composite_config" then ⟨true, some "Composite config updated."⟩
  else ⟨true, none⟩

/-- The dispatch loop over `message.toolCall.functionCalls`, in arrival
order.  `request_visual_context` hits `continue` (answered out-of-band,
no immediate response).  The handler invocations are NOT wrapped in
`try`/`catch`: a throwing handler propagates out of the `async` callback,
and the `sendToolResponse` after the loop never runs, so the whole
batch's responses are lost (modelled as `Except.error`). -/
def dispatchCalls (env : DispatchEnv) : List ToolCall → Except String (List ToolResponse)
  | [] => .ok []
  | fc :: rest =>
      if fc.name = "request_visual_context" then dispatchCalls env rest
      else if invokesHandler fc.name && env.handlerThrows fc then
        .error "handler exception"
      else
        match dispatchCalls env rest with
        | .ok rs => .ok (⟨fc.id, fc.name, handlerResult env fc⟩ :: rs)
        | .error e => .error e

/-! ### The `stop_speaking` flush against inbound audio decodes

A small-step machine over the refs touched by the audio branch and the
`stop_speaking` branch of `onmessage`.  Events, in the order the single
consumer observes them:

* `audioArrive n` — the audio branch of `onmessage` runs up to its
  `await decodeAudioData`: the `isStoppedRef` check happens HERE, before
  the await; if it passes, decode `n` is now in flight (`pending`).
* `decodeDone n` — the awaited decode resolves and the continuation
  schedules the buffer (`source.start`); the source performs no second
  `isStoppedRef` check at this point.
* `stopSpeak rid` — the `stop_speaking` dispatch branch: set
  `isStoppedRef = true`, stop and clear every source in `sourcesRef`,
  reset `nextStartTimeRef`, arm a 2000 ms timer, and push a ToolResponse
  for call id `rid`.
* `timerFire` — the armed `setTimeout` callback: `isStoppedRef = false`.
-/

inductive AudioEv where
  | audioArrive (n : ℕ)
  | decodeDone (n : ℕ)
  | stopSpeak (rid : String)
  | timerFire
deriving DecidableEq

structure AudioSt where
  isStopped : Bool
  pending : List ℕ
  scheduled : List ℕ
  stoppedSrcs : List ℕ
  responses : List String
deriving DecidableEq

def initAudioSt : AudioSt :=
  { isStopped := false, pending := [], scheduled := [], stoppedSrcs := []
    responses := [] }

/-- One step of the flush/audio machine (see the event descriptions
above). -/
def audioStep (st : AudioSt) : AudioEv → AudioSt
  | .audioArrive n =>
      if st.isStopped then st else { st with pending := st.pending ++ [n] }
  | .decodeDone n =>
      if n ∈ st.pending then
        { st with pending := st.pending.erase n
                  scheduled := st.scheduled ++ [n] }
      else st
  | .stopSpeak rid =>
      { st with isStopped := true
                scheduled := []
                stoppedSrcs := st.stoppedSrcs ++ st.scheduled
                responses := st.responses ++ [rid] }
  | .timerFire => { st with isStopped := false }

def runTrace (tr : List AudioEv) : AudioSt := tr.foldl audioStep initAudioSt

/-- Chunk `n` arrives (is consumed by the audio branch) strictly before
some `stop_speaking` flush in the trace. -/
def arrivesBeforeStop (tr : List AudioEv) (n : ℕ) : Prop :=
  ∃ i j, i < j ∧ tr.get? i = some (AudioEv.audioArrive n) ∧
    ∃ r, tr.get? j = some (AudioEv.stopSpeak r)

/-! ### Playback scheduling (the inbound-audio branch without a flush)

The audio branch computes, per decoded buffer,
`nextStartTime = max(nextStartTime, audioContext.currentTime)`, starts
the source at that time and advances `nextStartTime` by the buffer's
duration.  `schedStarts nst chunks` returns the scheduled start times
for a sequence of `(currentTime, duration)` observations processed from
running value `nst`. -/
def schedStarts : ℚ → List (ℚ × ℚ) → List ℚ
  | _, [] => []
  | nst, c :: rest => max nst c.1 :: schedStarts (max nst c.1 + c.2) rest

/-! ### Session teardown: `stopSession` -/

/-- The mutable refs and React state `stopSession` touches.  Booleans
record whether the corresponding ref currently holds a resource
(non-null); `sources` is the size of `sourcesRef`'s set. -/
structure StopState where
  session : Bool
  processor : Bool
  source : Bool
  stream : Bool
  audioCtx : Bool
  inputCtx : Bool
  sources : ℕ
  nextStartTime : ℚ
  isActive : Bool
  isConnecting : Bool
  volume : ℕ
deriving DecidableEq

/-- A resource-release action performed by `stopSession`. -/
inductive ReleaseEff where
  | disconnectProcessor
  | disconnectSource
  | stopTracks
  | closeAudioCtx
  | closeInputCtx
  | stopPlayback (n : ℕ)
deriving DecidableEq

/-- Source `stopSession`: null the session ref; for each resource ref,
release it only if it is non-null and then null it; stop and clear the
scheduled sources; reset `nextStartTime`; drop the UI flags.  Returns
the new state together with the log of release actions performed. -/
def stopSession (s : StopState) : StopState × List ReleaseEff :=
  let e1 := if s.processor then [ReleaseEff.disconnectProcessor] else []
  let e2 := if s.source then [ReleaseEff.disconnectSource] else []
  let e3 := if s.stream then [ReleaseEff.stopTracks] else []
  let e4 := if s.audioCtx then [ReleaseEff.closeAudioCtx] else []
  let e5 := if s.inputCtx then [ReleaseEff.closeInputCtx] else []
  let e6 := if s.sources ≠ 0 then [ReleaseEff.stopPlayback s.sources] else []
  ({ session := false, processor := false, source := false, stream := false
     audioCtx := false, inputCtx := false, sources := 0, nextStartTime := 0
     isActive := false, isConnecting := false, volume := 0 },
   e1 ++ e2 ++ e3 ++ e4 ++ e5 ++ e6)

/-- The transport `onclose` callback is the same `stopSession` routine. -/
def onclose : StopState → StopState × List ReleaseEff := stopSession

/-- The transport `onerror` callback is the same `stopSession` routine. -/
def onerror : StopState → StopState × List ReleaseEff := stopSession

/-! ### Session start: `startSession` -/

/-- The state read and written by `startSession` up to the point where
the connect attempt is issued (the `onopen`/`onmessage` callbacks run
later and are modelled separately above). -/
structure StartState where
  isActive : Bool
  isConnecting : Bool
  apiKey : Option String
  inputCtx : Bool
  audioCtx : Bool
  stream : Bool
deriving DecidableEq

/-- Externally visible actions of `startSession`, in program order. -/
inductive StartEff where
  | consoleError
  | enterConnecting
  | createInputCtx
  | createAudioCtx
  | micRequest
  | connectAttempt
  | leaveConnecting
deriving DecidableEq

/-- Ambient outcome of `navigator.mediaDevices.getUserMedia`. -/
structure StartEnv where
  micGranted : Bool
deriving DecidableEq

/-- Source `startSession`: return at once if `isActive`; if the API key
is missing, log to the console and return; otherwise set
`isConnecting`, create the input and output audio contexts, await
`getUserMedia` and, on success, issue the live-connect attempt.  A
rejection of `getUserMedia` lands in the `catch`, which logs the error
and clears `isConnecting` (the already-created contexts are not closed
there). -/
def startSession (env : StartEnv) (s : StartState) : StartState × List StartEff :=
  if s.isActive then (s, [])
  else if s.apiKey = none then (s, [StartEff.consoleError])
  else if env.micGranted then
    ({ s with isConnecting := true, inputCtx := true, audioCtx := true
              stream := true },
     [StartEff.enterConnecting, StartEff.createInputCtx, StartEff.createAudioCtx,
      StartEff.micRequest, StartEff.connectAttempt])
  else
    ({ s with isConnecting := false, inputCtx := true, audioCtx := true },
     [StartEff.enterConnecting, StartEff.createInputCtx, StartEff.createAudioCtx,
      StartEff.micRequest, StartEff.consoleError, StartEff.leaveConnecting])

/-! ## Theorems -/

/-- Helper: truncation toward zero of an integer-valued rational is the
integer itself. -/
theorem truncQ_intCast (n : ℤ) : truncQ (n : ℚ) = n := by
  unfold truncQ
  split
  · exact Int.floor_intCast n
  · exact Int.ceil_intCast n

/-- Helper: the source's per-sample encode at the positive full-scale
input `1.0`: `1.0 * 32768 = 32768` wraps under `ToInt16` to `-32768`. -/
theorem createBlobSample_one : createBlobSample 1 = -32768 := by
  have h : ((1 : ℚ) * 32768) = ((32768 : ℤ) : ℚ) := by norm_num
  show toInt16 (truncQ ((1 : ℚ) * 32768)) = -32768
  rw [h, truncQ_intCast]
  decide

/-- C3: the claim says the PCM encode step maps a sample `x` to
`round(x * 32767)` saturating at the int16 bounds, so `x = 1.0` encodes
to `32767` with no wraparound.  The source's `createBlob` instead stores
`x * 32768` into an `Int16Array`, which wraps: `x = 1.0` encodes to
`-32768`, the opposite extreme (`x = -1.0` does encode to `-32768`, and
the bytes are packed little-endian).  The spec itself flags the
multiply-only approach as an overflow defect to be corrected, so this is
a bug of the code against the specified encoding. -/
theorem C3_createBlob_wraps_at_one :
    createBlobSample 1 = -32768 ∧
    specEncodeSample 1 = 32767 ∧
    createBlobSample 1 ≠ specEncodeSample 1 ∧
    createBlobSample (-1) = -32768 ∧
    int16Bytes (createBlobSample 1) = [0, 128] := by
  have h1 := createBlobSample_one
  have hneg : createBlobSample (-1) = -32768 := by
    have h : ((-1 : ℚ) * 32768) = ((-32768 : ℤ) : ℚ) := by norm_num
    show toInt16 (truncQ ((-1 : ℚ) * 32768)) = -32768
    rw [h, truncQ_intCast]
    decide
  have h2 : specEncodeSample 1 = 32767 := by
    have hf : ⌊(1 : ℚ) * 32767 + 1 / 2⌋ = 32767 := by
      rw [Int.floor_eq_iff]
      constructor <;> norm_num
    show max (-32768) (min 32767 ⌊(1 : ℚ) * 32767 + 1 / 2⌋) = 32767
    rw [hf]
    decide
  refine ⟨h1, h2, ?_, hneg, ?_⟩
  · rw [h1, h2]
    decide
  · rw [h1]
    decide

/-- C4: the claim says `decode(encode(x))` reproduces every sample of
`x ∈ [-1,1]` within 16-bit quantization error, including the boundary
`x = 1.0`.  At `x = 1.0` the encode wraps to `-32768`, so the round trip
through the full wire pipeline (scale, little-endian pack, base64,
base64 decode, int16 unpack, scale back) returns `-1.0`: an error of
`2`, vastly exceeding the quantization step `1/32768`. -/
theorem C4_roundtrip_fails_at_one :
    decodeAudioData (decode (createBlob [1] 48000).data) 1 = [[-1]] ∧
    ¬ ((1 : ℚ) - (-1) ≤ 1 / 32768) := by
  constructor
  · have hblob : (createBlob [1] 48000).data = encode [0, 128] := by
      show encode (int16ToBytesLE ([1].map createBlobSample)) = encode [0, 128]
      rw [List.map_singleton, createBlobSample_one]
      rfl
    have hdec : decode (createBlob [1] 48000).data = [0, 128] := by
      rw [hblob]
      decide
    rw [decodeAudioData, hdec]
    have hint : bytesToInt16LE [0, 128] = [-32768] := by decide
    rw [hint]
    show [[((-32768 : ℤ) : ℚ) / 32768]] = [[-1]]
    norm_num
  · norm_num

/-- Helper: when no handler throws, the dispatch loop succeeds and
returns, in arrival order, one response per call except the
`request_visual_context` calls it skips. -/
theorem dispatchCalls_no_throw (env : DispatchEnv) (calls : List ToolCall)
    (h : ∀ c ∈ calls, env.handlerThrows c = false) :
    dispatchCalls env calls =
      Except.ok ((calls.filter (fun c => c.name != "request_visual_context")).map
        (fun fc => ⟨fc.id, fc.name, handlerResult env fc⟩)) := by
  induction calls with
  | nil => rfl
  | cons fc rest ih =>
      have hrest := ih (fun c hc => h c (List.mem_cons_of_mem _ hc))
      have hfc : env.handlerThrows fc = false := h fc (List.mem_cons_self _ _)
      by_cases hname : fc.name = "request_visual_context"
      · simp [dispatchCalls, hname, hrest, List.filter_cons]
      · simp [dispatchCalls, hname, hfc, hrest, List.filter_cons]

/-- C1 counterexample: the dispatch loop does not wrap the handler
invocations in `try`/`catch`, so a throwing handler aborts the whole
batch: for a one-call batch (no `request_visual_context` involved) whose
handler throws, dispatch produces an exception and zero responses, not
one response carrying an error result. -/
def throwingEnv : DispatchEnv :=
  { handlerThrows := fun _ => true, stateReport := "", docsText := "" }

theorem C1_handler_throw_loses_batch :
    dispatchCalls throwingEnv [⟨"a", "scroll_viewport", [("direction", "DOWN")]⟩] =
      Except.error "handler exception" := rfl

/-- C1 (amended): for every batch of N ToolCalls containing no
`request_visual_context` call, IF no handler throws, dispatch produces
exactly N ToolResponses whose ids (and names) match the received calls
one-to-one in order; a thrown handler instead propagates out of the
dispatch loop and the batch's responses are lost. -/
theorem C1_dispatch_complete (env : DispatchEnv) (calls : List ToolCall)
    (h1 : ∀ fc ∈ calls, fc.name ≠ "request_visual_context")
    (h2 : ∀ fc ∈ calls, env.handlerThrows fc = false) :
    ∃ rs, dispatchCalls env calls = Except.ok rs ∧
      rs.length = calls.length ∧
      rs.map ToolResponse.id = calls.map ToolCall.id ∧
      rs.map ToolResponse.name = calls.map ToolCall.name := by
  have hfil : calls.filter (fun c => c.name != "request_visual_context") = calls := by
    refine List.filter_eq_self.mpr (fun c hc => ?_)
    simpa using h1 c hc
  refine ⟨_, dispatchCalls_no_throw env calls h2, ?_, ?_, ?_⟩ <;>
    simp [hfil, List.map_map, Function.comp]

def quietEnv : DispatchEnv :=
  { handlerThrows := fun _ => false, stateReport := "", docsText := "" }

theorem C1_dispatch_complete_witness :
    ∃ rs, dispatchCalls quietEnv
        [⟨"a", "scroll_viewport", [("direction", "DOWN")]⟩,
         ⟨"b", "stop_speaking", []⟩] = Except.ok rs ∧
      rs.length = 2 ∧
      rs.map ToolResponse.id = ["a", "b"] ∧
      rs.map ToolResponse.name = ["scroll_viewport", "stop_speaking"] :=
  C1_dispatch_complete quietEnv
    [⟨"a", "scroll_viewport", [("direction", "DOWN")]⟩, ⟨"b", "stop_speaking", []⟩]
    (by decide) (by decide)

/-- C9: a received ToolCall whose name matches no dispatch branch is not
dropped and causes no failure: it invokes no external handler (so it
cannot throw), and the loop still pushes a response for its id carrying
the untouched initial result `{ ok: true }` — the generic
acknowledgement.  (The batch as a whole succeeds provided no OTHER
call's handler throws, which is C1's concern.) -/
theorem C9_unknown_tool_ack (env : DispatchEnv) (calls : List ToolCall)
    (fc : ToolCall) (hmem : fc ∈ calls)
    (hunk : isKnownName fc.name = false)
    (hthrow : ∀ c ∈ calls, env.handlerThrows c = false) :
    ∃ rs, dispatchCalls env calls = Except.ok rs ∧
      (⟨fc.id, fc.name, ⟨true, none⟩⟩ : ToolResponse) ∈ rs := by
  have hne : ∀ s : String, isKnownName s = true → fc.name ≠ s := by
    intro s hs hEq
    rw [hEq, hs] at hunk
    exact absurd hunk (by decide)
  refine ⟨_, dispatchCalls_no_throw env calls hthrow, ?_⟩
  have hres : handlerResult env fc = ⟨true, none⟩ := by
    simp only [handlerResult]
    rw [if_neg (hne _ (by decide)), if_neg (hne _ (by decide)),
      if_neg (hne _ (by decide)), if_neg (hne _ (by decide)),
      if_neg (hne _ (by decide)), if_neg (hne _ (by decide)),
      if_neg (hne _ (by decide)), if_neg (hne _ (by decide)),
      if_neg (hne _ (by decide)), if_neg (hne _ (by decide)),
      if_neg (hne _ (by decide)), if_neg (hne _ (by decide)),
      if_neg (hne _ (by decide)), if_neg (hne _ (by decide))]
  refine List.mem_map.mpr ⟨fc, List.mem_filter.mpr ⟨hmem, ?_⟩, by rw [hres]⟩
  simp only [bne_iff_ne]
  exact hne _ (by decide)

theorem C9_unknown_tool_ack_witness :
    ∃ rs, dispatchCalls quietEnv [⟨"z", "fly_to_the_moon", []⟩] = Except.ok rs ∧
      (⟨"z", "fly_to_the_moon", ⟨true, none⟩⟩ : ToolResponse) ∈ rs :=
  C9_unknown_tool_ack quietEnv [⟨"z", "fly_to_the_moon", []⟩]
    ⟨"z", "fly_to_the_moon", []⟩ (by decide) (by decide) (by decide)

/-- C2 counterexample: the claim says an inbound audio decode that
predates the flush is dropped no matter how much later it is processed.
In the source the `isStoppedRef` check runs BEFORE the
`await decodeAudioData`, and the scheduling continuation performs no
second check; so a chunk whose audio branch entered before the
`stop_speaking` flush, but whose decode resolves after it, is still
scheduled.  Concrete trace: chunk 0 arrives and passes the check, the
flush runs, then chunk 0's decode completes — and chunk 0 is scheduled
anyway. -/
theorem C2_stale_decode_scheduled :
    ¬ (∀ (tr : List AudioEv) (n : ℕ), arrivesBeforeStop tr n →
        n ∉ (runTrace tr).scheduled) := by
  intro h
  exact absurd (by decide :
      (0 : ℕ) ∈ (runTrace [AudioEv.audioArrive 0, AudioEv.stopSpeak "s",
        AudioEv.decodeDone 0]).scheduled)
    (h [AudioEv.audioArrive 0, AudioEv.stopSpeak "s", AudioEv.decodeDone 0] 0
      ⟨0, 1, by decide, by decide, "s", by decide⟩)

/-- C2 (amended): processing a `stop_speaking` call stops and clears
every previously scheduled-but-unfinished playback source, resets the
schedule, emits a ToolResponse for the stop call, and sets the stop
flag; an inbound audio chunk processed immediately afterwards (same
tick, flag still set) is a no-op — it is neither scheduled nor left
pending.  However the protection is only the `isStoppedRef` boolean: a
decode already in flight when the flush runs, or a chunk arriving after
the 2000 ms timer resets the flag, is still scheduled (see the
counterexample). -/
theorem C2_flush_same_tick (st : AudioSt) (rid : String) (n : ℕ) :
    (audioStep st (AudioEv.stopSpeak rid)).scheduled = [] ∧
    (audioStep st (AudioEv.stopSpeak rid)).stoppedSrcs =
      st.stoppedSrcs ++ st.scheduled ∧
    (audioStep st (AudioEv.stopSpeak rid)).responses = st.responses ++ [rid] ∧
    audioStep (audioStep st (AudioEv.stopSpeak rid)) (AudioEv.audioArrive n) =
      audioStep st (AudioEv.stopSpeak rid) := by
  refine ⟨rfl, rfl, rfl, ?_⟩
  simp [audioStep]

/-- C5: without an intervening flush, each decoded buffer is scheduled at
`max(nextStartTime, now)` and `nextStartTime` then advances by the
buffer's duration; hence (for nonnegative durations) consecutive start
times satisfy `start(i+1) = max(start(i) + dur(i), now(i+1))`, so each
start is at least the previous start plus the previous duration (no
overlap) and the start sequence is non-decreasing (no drift into the
past). -/
theorem C5_playback_monotone :
    ∀ (chunks : List (ℚ × ℚ)) (nst : ℚ) (i : ℕ),
      (∀ c ∈ chunks, 0 ≤ c.2) →
      i + 1 < (schedStarts nst chunks).length →
      (schedStarts nst chunks).getD (i + 1) 0 =
        max ((schedStarts nst chunks).getD i 0 + (chunks.getD i (0, 0)).2)
          ((chunks.getD (i + 1) (0, 0)).1) ∧
      (schedStarts nst chunks).getD i 0 + (chunks.getD i (0, 0)).2 ≤
        (schedStarts nst chunks).getD (i + 1) 0 ∧
      (schedStarts nst chunks).getD i 0 ≤ (schedStarts nst chunks).getD (i + 1) 0 := by
  intro chunks
  induction chunks with
  | nil =>
      intro nst i _ hlen
      simp [schedStarts] at hlen
  | cons c rest ih =>
      intro nst i hdur hlen
      match i with
      | 0 =>
          match rest with
          | [] => simp [schedStarts] at hlen
          | c2 :: rest2 =>
              have hd : 0 ≤ c.2 := hdur c (List.mem_cons_self _ _)
              refine ⟨rfl, ?_, ?_⟩
              · exact le_max_left _ _
              · calc max nst c.1 ≤ max nst c.1 + c.2 := le_add_of_nonneg_right hd
                  _ ≤ max (max nst c.1 + c.2) c2.1 := le_max_left _ _
      | j + 1 =>
          have hlen2 : j + 1 < (schedStarts (max nst c.1 + c.2) rest).length := by
            simpa [schedStarts] using hlen
          have hrest := ih (max nst c.1 + c.2) j
            (fun x hx => hdur x (List.mem_cons_of_mem _ hx)) hlen2
          simpa [schedStarts] using hrest

theorem C5_playback_monotone_witness :
    (schedStarts 0 [((0 : ℚ), (1 : ℚ)), (3/2, 2), (1, 1)]).getD 1 0 =
      max ((schedStarts 0 [((0 : ℚ), (1 : ℚ)), (3/2, 2), (1, 1)]).getD 0 0 +
            (([((0 : ℚ), (1 : ℚ)), (3/2, 2), (1, 1)]).getD 0 (0, 0)).2)
        ((([((0 : ℚ), (1 : ℚ)), (3/2, 2), (1, 1)]).getD 1 (0, 0)).1) ∧
    (schedStarts 0 [((0 : ℚ), (1 : ℚ)), (3/2, 2), (1, 1)]).getD 0 0 +
        (([((0 : ℚ), (1 : ℚ)), (3/2, 2), (1, 1)]).getD 0 (0, 0)).2 ≤
      (schedStarts 0 [((0 : ℚ), (1 : ℚ)), (3/2, 2), (1, 1)]).getD 1 0 ∧
    (schedStarts 0 [((0 : ℚ), (1 : ℚ)), (3/2, 2), (1, 1)]).getD 0 0 ≤
      (schedStarts 0 [((0 : ℚ), (1 : ℚ)), (3/2, 2), (1, 1)]).getD 1 0 :=
  C5_playback_monotone [((0 : ℚ), (1 : ℚ)), (3/2, 2), (1, 1)] 0 0
    (by norm_num) (by norm_num [schedStarts])

/-- C6: teardown is one shared routine (`onclose` and `onerror` are the
same `stopSession`), it never throws (it is a total function whose only
possibly-throwing call, `source.stop()`, the source wraps in
`try`/`catch`), a single run releases each resource at most once (the
release log has no duplicates), and running it again on the state it
leaves behind releases nothing and changes nothing. -/
theorem C6_stopSession_idempotent (s : StopState) :
    stopSession (stopSession s).1 = ((stopSession s).1, []) ∧
    (stopSession s).2.Nodup ∧
    onclose = stopSession ∧ onerror = stopSession := by
  refine ⟨rfl, ?_, rfl, rfl⟩
  rcases s with ⟨ses, p, src, st, ac, ic, n, nst, ia, icn, v⟩
  by_cases hn : n = 0 <;>
    cases p <;> cases src <;> cases st <;> cases ac <;> cases ic <;>
      simp [stopSession, hn]

/-- C7 counterexample: `startSession` is guarded only by `isActive`; in
the Connecting state (`isConnecting = true`, `isActive = false`, API key
present) a second start request is NOT a no-op — it proceeds all the way
to another connect attempt and mutates the session state (creating fresh
audio contexts). -/
def connectingState : StartState :=
  { isActive := false, isConnecting := true, apiKey := some "key"
    inputCtx := false, audioCtx := false, stream := false }

theorem C7_start_while_connecting_proceeds :
    StartEff.connectAttempt ∈ (startSession ⟨true⟩ connectingState).2 ∧
    (startSession ⟨true⟩ connectingState).1 ≠ connectingState := by decide

/-- C7 (amended): a start request is a no-op when the session is already
Active — `startSession` returns immediately, changing no state and
issuing no effect (in particular no second connection).  The Connecting
state is NOT guarded: a start request while Connecting proceeds and
opens a second connection (see the counterexample). -/
theorem C7_start_noop_when_active (env : StartEnv) (s : StartState)
    (h : s.isActive = true) : startSession env s = (s, []) := by
  simp [startSession, h]

def activeState : StartState :=
  { isActive := true, isConnecting := false, apiKey := some "key"
    inputCtx := true, audioCtx := true, stream := true }

theorem C7_start_noop_when_active_witness :
    startSession ⟨true⟩ activeState = (activeState, []) :=
  C7_start_noop_when_active ⟨true⟩ activeState rfl

/-- C8: when microphone permission is denied during startup (the
`getUserMedia` rejection), the session enters Connecting and falls into
the `catch`: it ends inactive and not connecting (never Active), the
effect log shows it never attempted the connection (so capture is never
wired and no audio is ever sent — those happen only in the `onopen`
callback of a connection), the error is reported (the `console.error` in
the `catch`), and there is no retry: exactly one microphone request and
no further attempt. -/
theorem C8_mic_denied_closes (env : StartEnv) (s : StartState)
    (h1 : s.isActive = false) (h2 : s.apiKey ≠ none)
    (h3 : env.micGranted = false) :
    (startSession env s).1.isActive = false ∧
    (startSession env s).1.isConnecting = false ∧
    (startSession env s).2 =
      [StartEff.enterConnecting, StartEff.createInputCtx,
       StartEff.createAudioCtx, StartEff.micRequest, StartEff.consoleError,
       StartEff.leaveConnecting] ∧
    StartEff.connectAttempt ∉ (startSession env s).2 ∧
    (startSession env s).2.count StartEff.micRequest = 1 := by
  have hE : startSession env s =
      ({ s with isConnecting := false, inputCtx := true, audioCtx := true },
       [StartEff.enterConnecting, StartEff.createInputCtx,
        StartEff.createAudioCtx, StartEff.micRequest, StartEff.consoleError,
        StartEff.leaveConnecting]) := by
    simp [startSession, h1, h2, h3]
  rw [hE]
  exact ⟨h1, rfl, rfl, by simp, by rfl⟩

theorem C8_mic_denied_closes_witness :
    (startSession ⟨false⟩
        ⟨false, false, some "key", false, false, false⟩).1.isActive = false ∧
    (startSession ⟨false⟩
        ⟨false, false, some "key", false, false, false⟩).1.isConnecting = false ∧
    (startSession ⟨false⟩ ⟨false, false, some "key", false, false, false⟩).2 =
      [StartEff.enterConnecting, StartEff.createInputCtx,
       StartEff.createAudioCtx, StartEff.micRequest, StartEff.consoleError,
       StartEff.leaveConnecting] ∧
    StartEff.connectAttempt ∉
      (startSession ⟨false⟩ ⟨false, false, some "key", false, false, false⟩).2 ∧
    (startSession ⟨false⟩
        ⟨false, false, some "key", false, false, false⟩).2.count
      StartEff.micRequest = 1 :=
  C8_mic_denied_closes ⟨false⟩ ⟨false, false, some "key", false, false, false⟩
    rfl (by decide) rfl

/-- C10: a start request while the API key is null (and the session is
not already active, so the key guard is reached) returns immediately:
the state is completely unchanged — it never enters Connecting, never
creates an audio context, never requests the microphone, never attempts
a connection — and the only observable effect is the console error
log. -/
theorem C10_null_key_noop (env : StartEnv) (s : StartState)
    (h1 : s.isActive = false) (h2 : s.apiKey = none) :
    startSession env s = (s, [StartEff.consoleError]) := by
  simp [startSession, h1, h2]

theorem C10_null_key_noop_witness :
    startSession ⟨true⟩ ⟨false, false, none, false, false, false⟩ =
      (⟨false, false, none, false, false, false⟩, [StartEff.consoleError]) :=
  C10_null_key_noop ⟨true⟩ ⟨false, false, none, false, false, false⟩ rfl rfl

end VoiceAssistant
